import Mathlib

/-!
Verification of the orchestration driver of `code_analysis_tool.py`.

The script is a sequential pipeline driver: `main` checks that the target
path exists, checks that seven external tools are resolvable, and then runs
fourteen analysis step functions in a fixed order.  Every step is a thin
wrapper around console printing, path construction, `open`, and
`subprocess.run`.

The shallow embedding below models the outside world as an `Env` record of
pure functions (filesystem queries, tool-spawn outcomes, prompt responses,
directory-walk listings) and each Python function as a Lean function from
the environment to a `StepOut`: the list of observable events the function
performs (console messages, attempted subprocess invocations, directory
creations, file writes) together with the exception, if any, that escapes
the function.  Python `try`/`except` clauses are modelled by branching on
the environment-supplied failure and on whether the installed handler's
exception class covers it: `except Exception` covers every modelled
exception, `except subprocess.CalledProcessError` covers only
`Exc.calledProcessError`.  `subprocess.run(check=True)` turns a non-zero
exit status into `CalledProcessError`; with `check=False` the status is
returned and ignored.  `os.path.join` is modelled as appending one
component to a component-list path.  `os.makedirs(..., exist_ok=True)` is
fallible (it raises `FileExistsError` when a plain file of that name
already exists, even with `exist_ok=True`), and in `run_ast_analysis` it
sits outside the `try`, so its failure escapes the step.  Files produced
by the invoked tools at the output locations the script passes them are
recorded as `write` events of the step that launched the tool.
-/

set_option maxRecDepth 8000

namespace CodeAnalysisTool

/-- Filesystem paths as lists of components; `os.path.join p s = p ++ [s]`. -/
abbrev FsPath := List String

/-- Rendering of a path for interpolation into console messages. -/
def pathStr (p : FsPath) : String := String.intercalate "/" p

/-- Model of `os.path.join` restricted to the way the script uses it:
joining one further component onto a base path. -/
def pathJoin (p : FsPath) (s : String) : FsPath := p ++ [s]

/-- Drop leading whitespace characters from a character list. -/
def dropWhileWs : List Char → List Char
  | [] => []
  | c :: cs => if c.isWhitespace then dropWhileWs cs else c :: cs

/-- Model of Python `str.strip()`: remove whitespace from both ends. -/
def pyStrip (s : String) : String :=
  ⟨(dropWhileWs (dropWhileWs s.data).reverse).reverse⟩

/-- Model of Python `str.endswith(suf)`, on the character list. -/
def pyEndsWith (s suf : String) : Bool :=
  decide (suf.data.length ≤ s.data.length) &&
    s.data.drop (s.data.length - suf.data.length) == suf.data

/-- Python exception classes that can arise in the script.  `osError`
stands for `OSError` and its subclasses (`FileNotFoundError` is kept
separate because spawn failures raise it), `parseError` for
`SyntaxError` from `ast.parse`. -/
inductive Exc where
  | calledProcessError
  | osError
  | fileNotFoundError
  | parseError
  deriving DecidableEq

/-- Rendering of an exception for interpolation into `f"... {e}"` messages. -/
def excStr : Exc → String
  | .calledProcessError => "CalledProcessError"
  | .osError => "OSError"
  | .fileNotFoundError => "FileNotFoundError"
  | .parseError => "SyntaxError"

/-- One argument of a subprocess command line: a fixed string or a path. -/
inductive Arg where
  | str (s : String)
  | path (p : FsPath)
  deriving DecidableEq

/-- A subprocess command line, as passed to `subprocess.run`. -/
abbrev Cmd := List Arg

/-- Outcome of attempting to spawn a subprocess: either the process ran to
completion with an exit status, or spawning itself raised (for example
`FileNotFoundError` when the executable is absent). -/
inductive SpawnResult where
  | completed (exitCode : Nat)
  | spawnError (e : Exc)
  deriving DecidableEq

/-- Semantics of `subprocess.run`: a spawn failure raises its exception;
with `check=True` a non-zero exit status raises `CalledProcessError`;
otherwise the exit status is returned. -/
def subprocessRun (check : Bool) : SpawnResult → Except Exc Nat
  | .spawnError e => .error e
  | .completed c => if check then (if c = 0 then .ok c else .error .calledProcessError) else .ok c

/-- Observable events of a run: console messages, attempted subprocess
invocations, directory creations, and file writes (with contents). -/
inductive Event where
  | msg (s : String)
  | invoke (cmd : Cmd)
  | mkdir (p : FsPath)
  | write (p : FsPath) (content : String)
  deriving DecidableEq

/-- Result of one step function: the events it performed, and the
exception that escaped it (`none` when it returned normally). -/
structure StepOut where
  events : List Event
  exc : Option Exc := none
  deriving DecidableEq

/-- The outside world the script runs against.  All fields are total
functions; fallibility of an operation is expressed in its result type. -/
structure Env where
  /-- Working directory of the process, `os.getcwd()`. -/
  cwd : FsPath
  /-- Result of `os.path.exists`. -/
  pathExists : FsPath → Bool
  /-- Result of `os.path.isfile`. -/
  isFile : FsPath → Bool
  /-- Result of `os.path.isdir`.  The script never queries it; it is kept
  to state claims that speak about directory-ness. -/
  isDir : FsPath → Bool
  /-- Whether `shutil.which` resolves a tool name. -/
  which : String → Bool
  /-- Failure raised by `open(p, 'w')`, or `none` when opening succeeds. -/
  openW : FsPath → Option Exc
  /-- Failure raised by `os.makedirs(p, exist_ok=True)`, or `none` when it
  succeeds.  Even with `exist_ok=True` it raises `FileExistsError` (an
  `OSError` subclass) when a plain file named `p` already exists. -/
  mkdirs : FsPath → Option Exc
  /-- Outcome of `subprocess.run` on a command line. -/
  run : Cmd → SpawnResult
  /-- Stream contents captured from, or file contents produced by, a tool
  invocation. -/
  output : Cmd → String
  /-- Response the user gives to `Prompt.ask`, keyed by the prompt text. -/
  prompt : String → String
  /-- Entries yielded by `os.walk`: root path and file names.  The `dirs`
  component of each triple is dropped since the script ignores it. -/
  walk : FsPath → List (FsPath × List String)
  /-- Combined result of reading a source file, `ast.parse`, and
  `ast.dump`: the dump text, or the exception raised along the way. -/
  astDump : FsPath → Except Exc String

/-- Basic consistency of a world: anything that is a file, or a directory,
also exists. -/
def Env.WF (env : Env) : Prop :=
  (∀ p, env.isFile p = true → env.pathExists p = true) ∧
  (∀ p, env.isDir p = true → env.pathExists p = true)

/-! Global configuration constants of the script. -/

def VERBOSITY_LEVEL : Nat := 1
def AST_OUTPUT_FORMAT : String := ".txt"
def CFG_OUTPUT_FORMAT : String := ".dot"
def CALL_GRAPH_OUTPUT_FORMAT : String := ".dot"
def DATA_FLOW_OUTPUT_FORMAT : String := ".txt"
def LINT_OUTPUT_FORMAT : String := ".txt"
def COMPLEXITY_OUTPUT_FORMAT : String := ".txt"
def DEPENDENCY_GRAPH_FORMAT : String := ".dot"
def COVERAGE_OUTPUT_FORMAT : String := ".html"
def MEMORY_PROFILE_OUTPUT_FORMAT : String := ".txt"
def PERFORMANCE_PROFILE_OUTPUT_FORMAT : String := ".txt"
def TYPE_CHECK_OUTPUT_FORMAT : String := ".txt"
def CLASS_VISUALIZATION_FORMAT : String := ".dot"
def SEMANTIC_ANALYSIS_FORMAT : String := ".txt"
def TEST_GENERATION_FORMAT : String := ".py"

/-! Step 1: AST analysis.  The per-file body sits in `try ... except
Exception`, so any failure while reading, parsing, or writing one file is
reported and the loop continues with the next file.  The `os.makedirs`
call on the output directory, however, runs before the loop and outside
any handler: its failure escapes the step function. -/

/-- Events for one file visited by the `os.walk` loop of
`run_ast_analysis`. -/
def astFileEvents (env : Env) (ast_output_dir : FsPath) (root : FsPath) (file : String) :
    List Event :=
  if pyEndsWith file ".py" then
    let file_path := pathJoin root file
    match env.astDump file_path with
    | .error e =>
      [.msg ("[red]Failed to process " ++ pathStr file_path ++ ": " ++ excStr e ++ "[/red]")]
    | .ok dump =>
      let ast_output_file := pathJoin ast_output_dir (file ++ AST_OUTPUT_FORMAT)
      match env.openW ast_output_file with
      | some e =>
        [.msg ("[red]Failed to process " ++ pathStr file_path ++ ": " ++ excStr e ++ "[/red]")]
      | none =>
        .write ast_output_file dump ::
          (if VERBOSITY_LEVEL > 1 then
            [.msg ("AST for [cyan]" ++ pathStr file_path ++ "[/cyan] saved to [green]" ++
              pathStr ast_output_file ++ "[/green]")]
          else [])
  else []

/-- Events for the inner `for file in files` loop of `run_ast_analysis`. -/
def astFilesEvents (env : Env) (ast_output_dir : FsPath) (root : FsPath) :
    List String → List Event
  | [] => []
  | f :: fs => astFileEvents env ast_output_dir root f ++ astFilesEvents env ast_output_dir root fs

/-- Events for the outer `for root, dirs, files in os.walk(...)` loop of
`run_ast_analysis`. -/
def astWalkEvents (env : Env) (ast_output_dir : FsPath) :
    List (FsPath × List String) → List Event
  | [] => []
  | (root, files) :: rest =>
    astFilesEvents env ast_output_dir root files ++ astWalkEvents env ast_output_dir rest

def run_ast_analysis (env : Env) (code_path : FsPath) : StepOut :=
  let ast_output_dir := pathJoin env.cwd "ast_output"
  match env.mkdirs ast_output_dir with
  | some e => { events := [.msg "[bold]1. AST Analysis[/bold]"], exc := some e }
  | none =>
    { events := .msg "[bold]1. AST Analysis[/bold]" :: .mkdir ast_output_dir ::
        astWalkEvents env ast_output_dir (env.walk code_path) }

/-! Step 2: control flow graph analysis, informational only. -/

def run_cfg_analysis (_env : Env) (_code_path : FsPath) : StepOut :=
  { events := [.msg "[bold]2. Control Flow Graph Analysis[/bold]",
      .msg "[yellow]Control Flow Graph generation requires specific tools and configurations. Skipping this step.[/yellow]"] }

/-! Step 3: call graph via pydeps, `check=True`, `except Exception`. -/

def call_graph_output_file (env : Env) : FsPath :=
  pathJoin env.cwd ("call_graph" ++ CALL_GRAPH_OUTPUT_FORMAT)

def call_graph_cmd (env : Env) (code_path : FsPath) : Cmd :=
  [.str "pydeps", .path code_path, .str "--noshow", .str "--max-bacon=2", .str "--show-deps",
   .str "-T", .str "dot", .str "-o", .path (call_graph_output_file env)]

def call_graph_saved_msg (env : Env) : String :=
  "Call graph saved to [green]" ++ pathStr (call_graph_output_file env) ++ "[/green]"

def call_graph_fail_msg (e : Exc) : String :=
  "[red]Failed to generate call graph: " ++ excStr e ++ "[/red]"

/-- Common shape of the two pydeps steps (3 and 7): one invocation with
`check=True` producing the artifact at `out`, inside
`try ... except Exception`, so a non-zero exit status or spawn failure
becomes a caught `fail` warning. -/
def graphToolStep (env : Env) (hdr : String) (out : FsPath) (cmd : Cmd)
    (saved : String) (fail : Exc → String) : StepOut :=
  { events := .msg hdr :: .invoke cmd ::
      match subprocessRun true (env.run cmd) with
      | .ok _ => [.write out (env.output cmd), .msg saved]
      | .error e => [.msg (fail e)] }

def run_call_graph_analysis (env : Env) (code_path : FsPath) : StepOut :=
  graphToolStep env "[bold]3. Call Graph Analysis[/bold]" (call_graph_output_file env)
    (call_graph_cmd env code_path) (call_graph_saved_msg env) call_graph_fail_msg

/-! Step 4: data flow analysis via mypy.  The output file is opened for
writing, the tool runs with `check=False`, and the handler is
`except subprocess.CalledProcessError` only: any other exception raised
while opening the file or spawning the tool escapes the function. -/

def data_flow_output_file (env : Env) : FsPath :=
  pathJoin env.cwd ("data_flow_analysis" ++ DATA_FLOW_OUTPUT_FORMAT)

def data_flow_cmd (code_path : FsPath) : Cmd :=
  [.str "mypy", .path code_path, .str "--show-error-codes", .str "--pretty"]

def data_flow_saved_msg (env : Env) : String :=
  "Data flow analysis report saved to [green]" ++ pathStr (data_flow_output_file env) ++ "[/green]"

def data_flow_fail_msg : String := "[red]Data flow analysis failed:[/red]"

/-- Common shape of the four capture steps (4, 5, 6 and 13): open the
output file for writing, run the tool with `check=False` capturing its
streams into the file, report the artifact as saved whatever the exit
status was.  The handler is `except subprocess.CalledProcessError` only,
so any other exception raised by the open or the spawn escapes. -/
def captureStep (env : Env) (hdr : String) (out : FsPath) (cmd : Cmd)
    (saved fail : String) : StepOut :=
  match env.openW out with
  | some e =>
    if e = Exc.calledProcessError then
      { events := [.msg hdr, .msg fail, .msg (excStr e)] }
    else
      { events := [.msg hdr], exc := some e }
  | none =>
    match env.run cmd with
    | .spawnError e =>
      if e = Exc.calledProcessError then
        { events := [.msg hdr, .write out "", .invoke cmd, .msg fail, .msg (excStr e)] }
      else
        { events := [.msg hdr, .write out "", .invoke cmd], exc := some e }
    | .completed _ =>
      { events := [.msg hdr, .write out "", .invoke cmd, .write out (env.output cmd),
                   .msg saved] }

def run_data_flow_analysis (env : Env) (code_path : FsPath) : StepOut :=
  captureStep env "[bold]4. Data Flow Analysis[/bold]" (data_flow_output_file env)
    (data_flow_cmd code_path) (data_flow_saved_msg env) data_flow_fail_msg

/-! Step 5: lint via pylint; same shape as step 4. -/

def lint_output_file (env : Env) : FsPath :=
  pathJoin env.cwd ("lint_report" ++ LINT_OUTPUT_FORMAT)

def lint_cmd (code_path : FsPath) : Cmd := [.str "pylint", .path code_path]

def lint_saved_msg (env : Env) : String :=
  "Linting report saved to [green]" ++ pathStr (lint_output_file env) ++ "[/green]"

def lint_fail_msg : String := "[red]Linting failed:[/red]"

def run_static_code_analysis (env : Env) (code_path : FsPath) : StepOut :=
  captureStep env "[bold]5. Static Code Analysis (Linter)[/bold]" (lint_output_file env)
    (lint_cmd code_path) (lint_saved_msg env) lint_fail_msg

/-! Step 6: cyclomatic complexity via radon; same shape as step 4. -/

def complexity_output_file (env : Env) : FsPath :=
  pathJoin env.cwd ("cyclomatic_complexity" ++ COMPLEXITY_OUTPUT_FORMAT)

def complexity_cmd (code_path : FsPath) : Cmd :=
  [.str "radon", .str "cc", .path code_path, .str "-s"]

def complexity_saved_msg (env : Env) : String :=
  "Cyclomatic complexity report saved to [green]" ++ pathStr (complexity_output_file env) ++ "[/green]"

def complexity_fail_msg : String := "[red]Cyclomatic complexity analysis failed:[/red]"

def run_cyclomatic_complexity_analysis (env : Env) (code_path : FsPath) : StepOut :=
  captureStep env "[bold]6. Cyclomatic Complexity Analysis[/bold]" (complexity_output_file env)
    (complexity_cmd code_path) (complexity_saved_msg env) complexity_fail_msg

/-! Step 7: dependency graph via pydeps, `check=True`, `except Exception`. -/

def dependency_graph_output_file (env : Env) : FsPath :=
  pathJoin env.cwd ("dependency_graph" ++ DEPENDENCY_GRAPH_FORMAT)

def dependency_graph_cmd (env : Env) (code_path : FsPath) : Cmd :=
  [.str "pydeps", .path code_path, .str "--noshow", .str "--max-bacon=2",
   .str "-T", .str "dot", .str "-o", .path (dependency_graph_output_file env)]

def dependency_graph_saved_msg (env : Env) : String :=
  "Dependency graph saved to [green]" ++ pathStr (dependency_graph_output_file env) ++ "[/green]"

def dependency_graph_fail_msg (e : Exc) : String :=
  "[red]Dependency graph analysis failed: " ++ excStr e ++ "[/red]"

def run_dependency_graph_analysis (env : Env) (code_path : FsPath) : StepOut :=
  graphToolStep env "[bold]7. Dependency Graph Analysis[/bold]" (dependency_graph_output_file env)
    (dependency_graph_cmd env code_path) (dependency_graph_saved_msg env)
    dependency_graph_fail_msg

/-! Step 8: coverage.  The whole body, including the `os.path.exists`
check on the `tests` entry, sits in `try ... except Exception`; both
coverage invocations use `check=True`. -/

def coverage_output_dir (env : Env) : FsPath := pathJoin env.cwd "htmlcov"

def coverage_discover_cmd (code_path : FsPath) : Cmd :=
  [.str "coverage", .str "run", .str "-m", .str "unittest", .str "discover",
   .str "-s", .path (pathJoin code_path "tests")]

def coverage_html_cmd (env : Env) : Cmd :=
  [.str "coverage", .str "html", .str "-d", .path (coverage_output_dir env)]

def coverage_saved_msg (env : Env) : String :=
  "Coverage report saved to [green]" ++ pathStr (coverage_output_dir env) ++ "[/green]"

def coverage_fail_msg (e : Exc) : String :=
  "[red]Code coverage analysis failed: " ++ excStr e ++ "[/red]"

def coverage_skip_msg : String :=
  "[yellow]No tests directory found. Skipping code coverage analysis.[/yellow]"

def run_code_coverage_analysis (env : Env) (code_path : FsPath) : StepOut :=
  let tests_dir := pathJoin code_path "tests"
  let hdr := Event.msg "[bold]8. Code Coverage Analysis[/bold]"
  { events := hdr ::
      (if env.pathExists tests_dir then
        let cmd1 := coverage_discover_cmd code_path
        .invoke cmd1 ::
          match subprocessRun true (env.run cmd1) with
          | .error e => [.msg (coverage_fail_msg e)]
          | .ok _ =>
            let cmd2 := coverage_html_cmd env
            .invoke cmd2 ::
              match subprocessRun true (env.run cmd2) with
              | .error e => [.msg (coverage_fail_msg e)]
              | .ok _ => [.mkdir (coverage_output_dir env), .msg (coverage_saved_msg env)]
      else
        [.msg coverage_skip_msg]) }

/-! Step 9: memory profiling.  Interactive: an empty (after stripping)
response skips the step; a response that is not an existing file skips the
step with a message.  Both mprof invocations use `check=True` inside
`try ... except Exception`. -/

def memoryPromptText : String :=
  "Enter the path to the main Python script to run for memory profiling (or press Enter to skip)"

def scriptMissingMsg (s : String) : String :=
  "[red]The script '" ++ s ++ "' does not exist in the provided repository.[/red]"

def memory_profile_output_file (env : Env) : FsPath :=
  pathJoin env.cwd ("memory_profile" ++ MEMORY_PROFILE_OUTPUT_FORMAT)

def mprof_launch_cmd (code_path : FsPath) (main_script : String) : Cmd :=
  [.str "mprof", .str "run", .str "--include-children", .str "python",
   .path (pathJoin code_path main_script)]

def mprof_plot_cmd (env : Env) : Cmd :=
  [.str "mprof", .str "plot", .str "--output", .path (memory_profile_output_file env)]

def memory_saved_msg (env : Env) : String :=
  "Memory profile report saved to [green]" ++ pathStr (memory_profile_output_file env) ++ "[/green]"

def memory_fail_msg (e : Exc) : String :=
  "[red]Memory usage profiling failed: " ++ excStr e ++ "[/red]"

def memory_skip_msg : String :=
  "[yellow]No script provided. Skipping memory usage profiling.[/yellow]"

def run_memory_usage_profiling (env : Env) (code_path : FsPath) : StepOut :=
  let hdr := Event.msg "[bold]9. Memory Usage Profiling[/bold]"
  let main_script := env.prompt memoryPromptText
  if pyStrip main_script = "" then
    { events := [hdr, .msg memory_skip_msg] }
  else if env.isFile (pathJoin code_path main_script) = false then
    { events := [hdr, .msg (scriptMissingMsg main_script)] }
  else
    let cmd1 := mprof_launch_cmd code_path main_script
    { events := hdr ::
        .msg "[yellow]Running the program for memory profiling. Please interact with it as needed.[/yellow]" ::
        .invoke cmd1 ::
        match subprocessRun true (env.run cmd1) with
        | .error e => [.msg (memory_fail_msg e)]
        | .ok _ =>
          let cmd2 := mprof_plot_cmd env
          .invoke cmd2 ::
            match subprocessRun true (env.run cmd2) with
            | .error e => [.msg (memory_fail_msg e)]
            | .ok _ => [.write (memory_profile_output_file env) (env.output cmd2),
                        .msg (memory_saved_msg env)] }

/-! Step 10: execution profiling via cProfile; interactive like step 9,
one invocation with `check=True` inside `try ... except Exception`. -/

def executionPromptText : String :=
  "Enter the path to the main Python script to run for execution profiling (or press Enter to skip)"

def performance_profile_output_file (env : Env) : FsPath :=
  pathJoin env.cwd ("performance_profile" ++ PERFORMANCE_PROFILE_OUTPUT_FORMAT)

def cprofile_cmd (env : Env) (code_path : FsPath) (main_script : String) : Cmd :=
  [.str "python", .str "-m", .str "cProfile", .str "-o",
   .path (performance_profile_output_file env), .path (pathJoin code_path main_script)]

def performance_saved_msg (env : Env) : String :=
  "Performance profile report saved to [green]" ++
    pathStr (performance_profile_output_file env) ++ "[/green]"

def execution_fail_msg (e : Exc) : String :=
  "[red]Execution profiling failed: " ++ excStr e ++ "[/red]"

def execution_skip_msg : String :=
  "[yellow]No script provided. Skipping execution profiling.[/yellow]"

def run_execution_profiling (env : Env) (code_path : FsPath) : StepOut :=
  let hdr := Event.msg "[bold]10. Execution Profiling (Time and Performance)[/bold]"
  let main_script := env.prompt executionPromptText
  if pyStrip main_script = "" then
    { events := [hdr, .msg execution_skip_msg] }
  else if env.isFile (pathJoin code_path main_script) = false then
    { events := [hdr, .msg (scriptMissingMsg main_script)] }
  else
    let cmd := cprofile_cmd env code_path main_script
    { events := hdr ::
        .msg "[yellow]Running the program for execution profiling. Please interact with it as needed.[/yellow]" ::
        .invoke cmd ::
        match subprocessRun true (env.run cmd) with
        | .error e => [.msg (execution_fail_msg e)]
        | .ok _ => [.write (performance_profile_output_file env) (env.output cmd),
                    .msg (performance_saved_msg env)] }

/-! Step 11: runtime type checking via typeguard; interactive like step 9.
The invocation uses `check=False` and the handler is `except Exception`,
so open and spawn failures are caught here, unlike steps 4-6 and 13. -/

def typecheckPromptText : String :=
  "Enter the path to the main Python script to run with runtime type checking (or press Enter to skip)"

def type_check_output_file (env : Env) : FsPath :=
  pathJoin env.cwd ("runtime_type_checking" ++ TYPE_CHECK_OUTPUT_FORMAT)

def typeguard_cmd (code_path : FsPath) (main_script : String) : Cmd :=
  [.str "python", .str "-m", .str "typeguard", .path (pathJoin code_path main_script)]

def typecheck_saved_msg (env : Env) : String :=
  "Type violation logs saved to [green]" ++ pathStr (type_check_output_file env) ++ "[/green]"

def typecheck_fail_msg (e : Exc) : String :=
  "[red]Runtime type checking failed: " ++ excStr e ++ "[/red]"

def typecheck_skip_msg : String :=
  "[yellow]No script provided. Skipping runtime type checking.[/yellow]"

def run_runtime_type_checking (env : Env) (code_path : FsPath) : StepOut :=
  let hdr := Event.msg "[bold]11. Runtime Type Checking[/bold]"
  let main_script := env.prompt typecheckPromptText
  if pyStrip main_script = "" then
    { events := [hdr, .msg typecheck_skip_msg] }
  else if env.isFile (pathJoin code_path main_script) = false then
    { events := [hdr, .msg (scriptMissingMsg main_script)] }
  else
    let out := type_check_output_file env
    let cmd := typeguard_cmd code_path main_script
    { events := hdr ::
        .msg "[yellow]Running the program with runtime type checking. Please interact with it as needed.[/yellow]" ::
        (match env.openW out with
        | some e => [.msg (typecheck_fail_msg e)]
        | none =>
          .write out "" :: .invoke cmd ::
            match env.run cmd with
            | .spawnError e => [.msg (typecheck_fail_msg e)]
            | .completed _ => [.write out (env.output cmd), .msg (typecheck_saved_msg env)]) }

/-! Step 12: class diagrams via pyreverse, `check=True`,
`except Exception`; afterwards the two expected diagram files are looked
up and reported individually. -/

def pyreverse_cmd (code_path : FsPath) : Cmd :=
  [.str "pyreverse", .path code_path, .str "-o", .str "dot", .str "-p", .str "classes"]

def class_diagram_saved_msg (env : Env) (diagram : String) : String :=
  "Class diagram saved to [green]" ++ pathStr (pathJoin env.cwd diagram) ++ "[/green]"

def class_viz_fail_msg (e : Exc) : String :=
  "[red]Class inheritance visualization failed: " ++ excStr e ++ "[/red]"

/-- Events for one expected diagram file after a successful pyreverse
invocation: the file pyreverse produced is recorded as this step's write. -/
def classDiagramEvents (env : Env) (cmd : Cmd) (diagram : String) : List Event :=
  let diagram_path := pathJoin env.cwd diagram
  if env.pathExists diagram_path then
    [.write diagram_path (env.output cmd), .msg (class_diagram_saved_msg env diagram)]
  else
    [.msg ("[red]Failed to find generated diagram " ++ diagram ++ "[/red]")]

def run_class_inheritance_visualization (env : Env) (code_path : FsPath) : StepOut :=
  let cmd := pyreverse_cmd code_path
  { events := .msg "[bold]12. Class Inheritance/Composition Visualization[/bold]" :: .invoke cmd ::
      match subprocessRun true (env.run cmd) with
      | .error e => [.msg (class_viz_fail_msg e)]
      | .ok _ => classDiagramEvents env cmd "classes_classes.dot" ++
                 classDiagramEvents env cmd "classes_packages.dot" }

/-! Step 13: semantic analysis via mypy; same shape as step 4. -/

def semantic_output_file (env : Env) : FsPath :=
  pathJoin env.cwd ("semantic_analysis" ++ SEMANTIC_ANALYSIS_FORMAT)

def semantic_cmd (code_path : FsPath) : Cmd := [.str "mypy", .path code_path]

def semantic_saved_msg (env : Env) : String :=
  "Semantic analysis report saved to [green]" ++ pathStr (semantic_output_file env) ++ "[/green]"

def semantic_fail_msg : String := "[red]Semantic analysis failed:[/red]"

def run_semantic_code_analysis (env : Env) (code_path : FsPath) : StepOut :=
  captureStep env "[bold]13. Semantic Code Analysis[/bold]" (semantic_output_file env)
    (semantic_cmd code_path) (semantic_saved_msg env) semantic_fail_msg

/-! Step 14: automated test generation, informational only. -/

def run_automated_test_generation (_env : Env) (_code_path : FsPath) : StepOut :=
  { events := [.msg "[bold]14. Automated Test Generation[/bold]",
      .msg "[yellow]Automated test generation requires code-specific configuration and is not automated in this script.[/yellow]"] }

/-! The requirement checker. -/

def required_tools : List String :=
  ["mypy", "pylint", "radon", "pydeps", "coverage", "pyreverse", "dot"]

/-- Tools of `required_tools` that `shutil.which` does not resolve, in
list order, as accumulated by the loop in `check_requirements`. -/
def missing_tools (env : Env) : List String :=
  required_tools.filter (fun t => !env.which t)

def missing_tools_msg (missing : List String) : String :=
  "[red]The following required tools are missing: " ++ String.intercalate ", " missing ++ "[/red]"

/-- Model of `check_requirements`: its console events and whether it
returned (`true`) or called `sys.exit(1)` (`false`). -/
def check_requirements (env : Env) : List Event × Bool :=
  let missing := missing_tools env
  if missing = [] then
    ([.msg "[bold]Checking requirements...[/bold]",
      .msg "[green]All required tools are installed.[/green]"], true)
  else
    ([.msg "[bold]Checking requirements...[/bold]",
      .msg (missing_tools_msg missing),
      .msg "[red]Please install them before running the script.[/red]"], false)

/-! The step runner. -/

/-- Names for the fourteen step functions. -/
inductive StepId where
  | astAnalysis
  | cfgAnalysis
  | callGraphAnalysis
  | dataFlowAnalysis
  | staticCodeAnalysis
  | cyclomaticComplexityAnalysis
  | dependencyGraphAnalysis
  | codeCoverageAnalysis
  | memoryUsageProfiling
  | executionProfiling
  | runtimeTypeChecking
  | classInheritanceVisualization
  | semanticCodeAnalysis
  | automatedTestGeneration
  deriving DecidableEq, Fintype

/-- The `analysis_functions` list of `main`, in source order. -/
def analysis_functions : List StepId :=
  [.astAnalysis, .cfgAnalysis, .callGraphAnalysis, .dataFlowAnalysis,
   .staticCodeAnalysis, .cyclomaticComplexityAnalysis, .dependencyGraphAnalysis,
   .codeCoverageAnalysis, .memoryUsageProfiling, .executionProfiling,
   .runtimeTypeChecking, .classInheritanceVisualization, .semanticCodeAnalysis,
   .automatedTestGeneration]

/-- Dispatch from a step name to its step function. -/
def runStep (env : Env) (code_path : FsPath) : StepId → StepOut
  | .astAnalysis => run_ast_analysis env code_path
  | .cfgAnalysis => run_cfg_analysis env code_path
  | .callGraphAnalysis => run_call_graph_analysis env code_path
  | .dataFlowAnalysis => run_data_flow_analysis env code_path
  | .staticCodeAnalysis => run_static_code_analysis env code_path
  | .cyclomaticComplexityAnalysis => run_cyclomatic_complexity_analysis env code_path
  | .dependencyGraphAnalysis => run_dependency_graph_analysis env code_path
  | .codeCoverageAnalysis => run_code_coverage_analysis env code_path
  | .memoryUsageProfiling => run_memory_usage_profiling env code_path
  | .executionProfiling => run_execution_profiling env code_path
  | .runtimeTypeChecking => run_runtime_type_checking env code_path
  | .classInheritanceVisualization => run_class_inheritance_visualization env code_path
  | .semanticCodeAnalysis => run_semantic_code_analysis env code_path
  | .automatedTestGeneration => run_automated_test_generation env code_path

/-- The `for analysis_func in ...` loop of `main`: calls each step function
in order, recording each call with its result; an exception escaping a
step aborts the loop (the loop has no handler of its own). -/
def runSteps (env : Env) (code_path : FsPath) :
    List StepId → List (StepId × StepOut) × Option Exc
  | [] => ([], none)
  | s :: rest =>
    let o := runStep env code_path s
    match o.exc with
    | some e => ([(s, o)], some e)
    | none =>
      let r := runSteps env code_path rest
      ((s, o) :: r.1, r.2)

/-- Console events of a sequence of step calls, in order. -/
def stepEvents (calls : List (StepId × StepOut)) : List Event :=
  (calls.map (fun c => c.2.events)).flatten

/-- How the process ended: `sys.exit(code)`, an uncaught exception
(non-zero process exit status), or falling off the end of `main`
(process exit status zero). -/
inductive MainResult where
  | exitedStatus (code : Nat)
  | crashed (e : Exc)
  | completedOk
  deriving DecidableEq

/-- Full observable outcome of one run of `main`. -/
structure RunResult where
  events : List Event
  calls : List (StepId × StepOut)
  result : MainResult
  deriving DecidableEq

def path_missing_msg (code_path : FsPath) : String :=
  "[red]Error: Path '" ++ pathStr code_path ++ "' does not exist.[/red]"

def starting_banner : Event := .msg "[bold blue]Starting Code Analysis[/bold blue]"

def completed_banner : Event := .msg "[bold green]Code Analysis Completed[/bold green]"

/-- Model of `main`: path check, requirement check, then the step loop. -/
def main_run (env : Env) (code_path : FsPath) : RunResult :=
  if env.pathExists code_path = false then
    { events := [.msg (path_missing_msg code_path)], calls := [], result := .exitedStatus 1 }
  else
    let req := check_requirements env
    if req.2 = false then
      { events := req.1, calls := [], result := .exitedStatus 1 }
    else
      let r := runSteps env code_path analysis_functions
      match r.2 with
      | some e =>
        { events := req.1 ++ starting_banner :: stepEvents r.1,
          calls := r.1, result := .crashed e }
      | none =>
        { events := req.1 ++ starting_banner :: (stepEvents r.1 ++ [completed_banner]),
          calls := r.1, result := .completedOk }

/-! Observables used by the claims. -/

/-- The path a single event writes (file writes and directory creations). -/
def eventWritePath : Event → Option FsPath
  | .write p _ => some p
  | .mkdir p => some p
  | _ => none

/-- All paths written by a list of events. -/
def writePaths (evs : List Event) : List FsPath := evs.filterMap eventWritePath

/-- Whether a list of events contains an attempted subprocess invocation. -/
def hasInvoke (evs : List Event) : Bool :=
  evs.any (fun e => match e with | .invoke _ => true | _ => false)

/-- Content of the last write to `p` in an event list, if any. -/
def lastWrite (evs : List Event) (p : FsPath) : Option String :=
  evs.foldl (fun acc e => match e with
    | .write q c => if q = p then some c else acc
    | _ => acc) none

/-- One string occurs somewhere inside another. -/
def containsStr (m sub : String) : Prop := ∃ x y, m = x ++ (sub ++ y)

/-- First path component under the working directory that each step's
writes live in. -/
def ownedHeads : StepId → List String
  | .astAnalysis => ["ast_output"]
  | .cfgAnalysis => []
  | .callGraphAnalysis => ["call_graph" ++ CALL_GRAPH_OUTPUT_FORMAT]
  | .dataFlowAnalysis => ["data_flow_analysis" ++ DATA_FLOW_OUTPUT_FORMAT]
  | .staticCodeAnalysis => ["lint_report" ++ LINT_OUTPUT_FORMAT]
  | .cyclomaticComplexityAnalysis => ["cyclomatic_complexity" ++ COMPLEXITY_OUTPUT_FORMAT]
  | .dependencyGraphAnalysis => ["dependency_graph" ++ DEPENDENCY_GRAPH_FORMAT]
  | .codeCoverageAnalysis => ["htmlcov"]
  | .memoryUsageProfiling => ["memory_profile" ++ MEMORY_PROFILE_OUTPUT_FORMAT]
  | .executionProfiling => ["performance_profile" ++ PERFORMANCE_PROFILE_OUTPUT_FORMAT]
  | .runtimeTypeChecking => ["runtime_type_checking" ++ TYPE_CHECK_OUTPUT_FORMAT]
  | .classInheritanceVisualization => ["classes_classes.dot", "classes_packages.dot"]
  | .semanticCodeAnalysis => ["semantic_analysis" ++ SEMANTIC_ANALYSIS_FORMAT]
  | .automatedTestGeneration => []

/-- The four steps whose handler is `except subprocess.CalledProcessError`
only (steps 4, 5, 6 and 13). -/
def cpeOnlySteps : List StepId :=
  [.dataFlowAnalysis, .staticCodeAnalysis, .cyclomaticComplexityAnalysis, .semanticCodeAnalysis]

/-- The steps with an error path outside any handler: the AST step, whose
`os.makedirs` call runs before its `try`, and the four capture steps,
whose handler covers `CalledProcessError` only. -/
def escapableSteps : List StepId := .astAnalysis :: cpeOnlySteps

/-- Prompt text of the three interactive steps. -/
def promptTextOf : StepId → String
  | .memoryUsageProfiling => memoryPromptText
  | .executionProfiling => executionPromptText
  | .runtimeTypeChecking => typecheckPromptText
  | _ => ""

/-! Concrete worlds used for witnesses and counterexamples. -/

/-- A world where everything succeeds: every path exists, every tool
resolves, every spawn completes with status 0, prompts are answered with
the empty string, and the target tree has no Python files. -/
def baseEnv : Env :=
  { cwd := ["cwd"],
    pathExists := fun _ => true,
    isFile := fun _ => true,
    isDir := fun _ => true,
    which := fun _ => true,
    openW := fun _ => none,
    run := fun _ => .completed 0,
    output := fun _ => "REPORT",
    prompt := fun _ => "",
    walk := fun _ => [],
    astDump := fun _ => .ok "AST",
    mkdirs := fun _ => none }

/-- A world like `baseEnv` except that opening `data_flow_analysis.txt`
for writing raises an `OSError` (for example, a directory of that name
already sits in the working directory). -/
def envEscape : Env :=
  { baseEnv with
    openW := fun p => if p = ["cwd", "data_flow_analysis.txt"] then some Exc.osError else none }

/-- A world like `baseEnv` except that pylint exits with status 16. -/
def envLintFails : Env :=
  { baseEnv with
    run := fun cmd => .completed (if cmd = lint_cmd ["repo"] then 16 else 0) }

/-- A world like `baseEnv` except that pydeps (call graph form) exits with
status 2 and pylint exits with status 16. -/
def envC3W : Env :=
  { baseEnv with
    run := fun cmd =>
      if cmd = call_graph_cmd baseEnv ["repo"] then .completed 2
      else .completed (if cmd = lint_cmd ["repo"] then 16 else 0) }

/-- A world like `baseEnv` except that `dot` is not on the search path. -/
def envNoDot : Env :=
  { baseEnv with which := fun t => if t = "dot" then false else true }

/-- A world where no path exists. -/
def envNoPath : Env :=
  { baseEnv with pathExists := fun _ => false }

/-- A world like `baseEnv` where every existing entry is a plain file:
in particular `repo/tests` exists but is not a directory. -/
def envTestsFile : Env :=
  { baseEnv with isDir := fun _ => false }

/-- Existence predicate of the interactive-step world: everything exists
except `repo/ghost.py`. -/
def exist7 : FsPath → Bool := fun p => if p = ["repo", "ghost.py"] then false else true

/-- A world where the memory-profiling prompt is answered with
`ghost.py`, a file that does not exist under the target path. -/
def env7 : Env :=
  { baseEnv with
    pathExists := exist7, isFile := exist7, isDir := exist7,
    prompt := fun t => if t = memoryPromptText then "ghost.py" else "" }

/-- A world where a plain file named `ast_output` occupies the working
directory, so the `os.makedirs` call of the AST step raises. -/
def envAstBlocked : Env :=
  { baseEnv with
    mkdirs := fun p => if p = ["cwd", "ast_output"] then some Exc.osError else none }

/-- A world whose target tree holds two Python files with the same base
name `x.py` in two different subdirectories. -/
def envC9 : Env :=
  { baseEnv with
    walk := fun _ => [(["repo", "a"], ["x.py"]), (["repo", "b"], ["x.py"])],
    astDump := fun p => if p = ["repo", "a", "x.py"] then .ok "DUMP-A" else .ok "DUMP-B" }

/-! Helper lemmas about strings: two strings with distinct prefixes of
equal length are distinct, whatever follows. -/

theorem ne_of_take_ne (s t : String) (k : Nat) (h : s.data.take k ≠ t.data.take k) : s ≠ t :=
  fun he => h (by rw [he])

theorem append_take_eq (a x : String) (k : Nat) (hk : k ≤ a.data.length) :
    (a ++ x).data.take k = a.data.take k := by
  rw [String.data_append]; exact List.take_append_of_le_length hk

theorem append_ne_append (a x b y : String) (k : Nat) (ha : k ≤ a.data.length)
    (hb : k ≤ b.data.length) (h : a.data.take k ≠ b.data.take k) : a ++ x ≠ b ++ y :=
  ne_of_take_ne _ _ k (by rw [append_take_eq a x k ha, append_take_eq b y k hb]; exact h)

theorem append_ne_str (a x b : String) (k : Nat) (ha : k ≤ a.data.length)
    (hb : k ≤ b.data.length) (h : a.data.take k ≠ b.data.take k) : a ++ x ≠ b := by
  have hx := append_ne_append a x b "" k ha hb h
  rwa [String.append_empty] at hx

/-! Helper lemmas about the step runner. -/

theorem runSteps_all_ok (env : Env) (cp : FsPath) :
    ∀ l : List StepId, (∀ s ∈ l, (runStep env cp s).exc = none) →
      runSteps env cp l = (l.map (fun s => (s, runStep env cp s)), none)
  | [], _ => rfl
  | s :: rest, h => by
    have hs := h s (List.mem_cons_self s rest)
    have hr := runSteps_all_ok env cp rest (fun t ht => h t (List.mem_cons_of_mem s ht))
    simp only [runSteps, hs, hr, List.map_cons]

/-! Helper lemmas about write paths. -/

theorem writePaths_append (a b : List Event) :
    writePaths (a ++ b) = writePaths a ++ writePaths b :=
  List.filterMap_append a b eventWritePath

theorem writePaths_nil : writePaths [] = [] := rfl

theorem writePaths_cons_msg (s : String) (l : List Event) :
    writePaths (.msg s :: l) = writePaths l := rfl

theorem writePaths_cons_invoke (c : Cmd) (l : List Event) :
    writePaths (.invoke c :: l) = writePaths l := rfl

theorem writePaths_cons_mkdir (p : FsPath) (l : List Event) :
    writePaths (.mkdir p :: l) = p :: writePaths l := rfl

theorem writePaths_cons_write (p : FsPath) (c : String) (l : List Event) :
    writePaths (.write p c :: l) = p :: writePaths l := rfl

/-- The only path a capture step ever writes is its output file. -/
theorem captureStep_writes (env : Env) (hdr : String) (out : FsPath) (cmd : Cmd)
    (saved fail : String) (p : FsPath)
    (hp : p ∈ writePaths (captureStep env hdr out cmd saved fail).events) : p = out := by
  unfold captureStep at hp
  split at hp
  · split at hp <;> simp [writePaths, eventWritePath] at hp
  · split at hp
    · split at hp <;> simp [writePaths, eventWritePath] at hp <;> exact hp
    · simp [writePaths, eventWritePath] at hp
      exact hp

/-- The only path a pydeps-shaped step ever writes is its output file. -/
theorem graphToolStep_writes (env : Env) (hdr : String) (out : FsPath) (cmd : Cmd)
    (saved : String) (fail : Exc → String) (p : FsPath)
    (hp : p ∈ writePaths (graphToolStep env hdr out cmd saved fail).events) : p = out := by
  unfold graphToolStep at hp
  simp only [writePaths_cons_msg, writePaths_cons_invoke] at hp
  split at hp
  · simp [writePaths, eventWritePath] at hp
    exact hp
  · simp [writePaths, eventWritePath] at hp

/-- Events of a capture step when the open succeeds and the tool runs to
completion: the artifact is reported saved whatever the exit status. -/
theorem captureStep_events_completed (env : Env) (hdr : String) (out : FsPath) (cmd : Cmd)
    (saved fail : String) (c : Nat)
    (ho : env.openW out = none) (hc : env.run cmd = .completed c) :
    (captureStep env hdr out cmd saved fail).events =
      [.msg hdr, .write out "", .invoke cmd, .write out (env.output cmd), .msg saved] := by
  unfold captureStep; rw [ho, hc]

/-- Events of a pydeps-shaped step when the tool exits non-zero: the
`check=True` invocation raises `CalledProcessError`, caught as a warning. -/
theorem graphToolStep_events_failed (env : Env) (hdr : String) (out : FsPath) (cmd : Cmd)
    (saved : String) (fail : Exc → String) (c : Nat)
    (hc : env.run cmd = .completed c) (hcz : c ≠ 0) :
    (graphToolStep env hdr out cmd saved fail).events =
      [.msg hdr, .invoke cmd, .msg (fail .calledProcessError)] := by
  unfold graphToolStep; rw [hc]; simp [subprocessRun, hcz]

theorem astFileEvents_writes (env : Env) (d root : FsPath) (f : String) (p : FsPath)
    (hp : p ∈ writePaths (astFileEvents env d root f)) : ∃ x, p = pathJoin d x := by
  simp only [astFileEvents, VERBOSITY_LEVEL, gt_iff_lt, lt_self_iff_false, if_false] at hp
  split at hp
  · split at hp
    · simp [writePaths, eventWritePath] at hp
    · split at hp
      · simp [writePaths, eventWritePath] at hp
      · simp only [writePaths_cons_write, writePaths_nil] at hp
        rw [List.mem_singleton] at hp
        exact ⟨f ++ AST_OUTPUT_FORMAT, hp⟩
  · simp [writePaths] at hp

theorem astFilesEvents_writes (env : Env) (d root : FsPath) (p : FsPath) :
    ∀ fs : List String, p ∈ writePaths (astFilesEvents env d root fs) → ∃ x, p = pathJoin d x
  | [], hp => by simp [astFilesEvents, writePaths] at hp
  | f :: fs, hp => by
    rw [astFilesEvents, writePaths_append, List.mem_append] at hp
    rcases hp with hp | hp
    · exact astFileEvents_writes env d root f p hp
    · exact astFilesEvents_writes env d root p fs hp

theorem astWalkEvents_writes (env : Env) (d : FsPath) (p : FsPath) :
    ∀ w : List (FsPath × List String),
      p ∈ writePaths (astWalkEvents env d w) → ∃ x, p = pathJoin d x
  | [], hp => by simp [astWalkEvents, writePaths] at hp
  | (root, files) :: rest, hp => by
    rw [astWalkEvents, writePaths_append, List.mem_append] at hp
    rcases hp with hp | hp
    · exact astFilesEvents_writes env d root p files hp
    · exact astWalkEvents_writes env d p rest hp

/-- Writes of one diagram lookup after pyreverse. -/
theorem classDiagramEvents_writes (env : Env) (cmd : Cmd) (d : String) (p : FsPath)
    (hp : p ∈ writePaths (classDiagramEvents env cmd d)) : p = pathJoin env.cwd d := by
  simp only [classDiagramEvents] at hp
  split at hp
  · simp only [writePaths_cons_write, writePaths_cons_msg, writePaths_nil] at hp
    rw [List.mem_singleton] at hp
    exact hp
  · simp [writePaths, eventWritePath] at hp

/-- Every path a step writes sits directly under the working directory in
a first component owned by that step. -/
theorem writePaths_runStep (env : Env) (cp : FsPath) (s : StepId) (p : FsPath)
    (hp : p ∈ writePaths (runStep env cp s).events) :
    ∃ h rest, p = env.cwd ++ (h :: rest) ∧ h ∈ ownedHeads s := by
  cases s
  case astAnalysis =>
    simp only [runStep, run_ast_analysis] at hp
    split at hp
    · simp [writePaths, eventWritePath] at hp
    · simp only [writePaths_cons_msg, writePaths_cons_mkdir] at hp
      rw [List.mem_cons] at hp
      rcases hp with hp | hp
      · exact ⟨"ast_output", [], hp, by simp [ownedHeads]⟩
      · obtain ⟨x, hx⟩ :=
          astWalkEvents_writes env (pathJoin env.cwd "ast_output") p (env.walk cp) hp
        exact ⟨"ast_output", [x], by rw [hx]; simp [pathJoin], by simp [ownedHeads]⟩
  case cfgAnalysis =>
    simp [runStep, run_cfg_analysis, writePaths, eventWritePath] at hp
  case callGraphAnalysis =>
    have h1 := graphToolStep_writes env _ _ _ _ _ p
      (by simpa only [runStep, run_call_graph_analysis] using hp)
    refine ⟨"call_graph" ++ CALL_GRAPH_OUTPUT_FORMAT, [], ?_, by simp [ownedHeads]⟩
    simpa [call_graph_output_file, pathJoin] using h1
  case dataFlowAnalysis =>
    have h1 := captureStep_writes env _ _ _ _ _ p
      (by simpa only [runStep, run_data_flow_analysis] using hp)
    refine ⟨"data_flow_analysis" ++ DATA_FLOW_OUTPUT_FORMAT, [], ?_, by simp [ownedHeads]⟩
    simpa [data_flow_output_file, pathJoin] using h1
  case staticCodeAnalysis =>
    have h1 := captureStep_writes env _ _ _ _ _ p
      (by simpa only [runStep, run_static_code_analysis] using hp)
    refine ⟨"lint_report" ++ LINT_OUTPUT_FORMAT, [], ?_, by simp [ownedHeads]⟩
    simpa [lint_output_file, pathJoin] using h1
  case cyclomaticComplexityAnalysis =>
    have h1 := captureStep_writes env _ _ _ _ _ p
      (by simpa only [runStep, run_cyclomatic_complexity_analysis] using hp)
    refine ⟨"cyclomatic_complexity" ++ COMPLEXITY_OUTPUT_FORMAT, [], ?_, by simp [ownedHeads]⟩
    simpa [complexity_output_file, pathJoin] using h1
  case dependencyGraphAnalysis =>
    have h1 := graphToolStep_writes env _ _ _ _ _ p
      (by simpa only [runStep, run_dependency_graph_analysis] using hp)
    refine ⟨"dependency_graph" ++ DEPENDENCY_GRAPH_FORMAT, [], ?_, by simp [ownedHeads]⟩
    simpa [dependency_graph_output_file, pathJoin] using h1
  case codeCoverageAnalysis =>
    simp only [runStep, run_code_coverage_analysis, writePaths_cons_msg] at hp
    split at hp
    · simp only [writePaths_cons_invoke] at hp
      split at hp
      · simp [writePaths, eventWritePath] at hp
      · simp only [writePaths_cons_invoke] at hp
        split at hp
        · simp [writePaths, eventWritePath] at hp
        · simp only [writePaths_cons_mkdir, writePaths_cons_msg, writePaths_nil] at hp
          rw [List.mem_singleton] at hp
          refine ⟨"htmlcov", [], ?_, by simp [ownedHeads]⟩
          simpa [coverage_output_dir, pathJoin] using hp
    · simp [writePaths, eventWritePath] at hp
  case memoryUsageProfiling =>
    simp only [runStep, run_memory_usage_profiling] at hp
    split at hp
    · simp [writePaths, eventWritePath] at hp
    · split at hp
      · simp [writePaths, eventWritePath] at hp
      · simp only [writePaths_cons_msg, writePaths_cons_invoke] at hp
        split at hp
        · simp [writePaths, eventWritePath] at hp
        · simp only [writePaths_cons_invoke] at hp
          split at hp
          · simp [writePaths, eventWritePath] at hp
          · simp only [writePaths_cons_write, writePaths_cons_msg, writePaths_nil] at hp
            rw [List.mem_singleton] at hp
            refine ⟨"memory_profile" ++ MEMORY_PROFILE_OUTPUT_FORMAT, [], ?_,
              by simp [ownedHeads]⟩
            simpa [memory_profile_output_file, pathJoin] using hp
  case executionProfiling =>
    simp only [runStep, run_execution_profiling] at hp
    split at hp
    · simp [writePaths, eventWritePath] at hp
    · split at hp
      · simp [writePaths, eventWritePath] at hp
      · simp only [writePaths_cons_msg, writePaths_cons_invoke] at hp
        split at hp
        · simp [writePaths, eventWritePath] at hp
        · simp only [writePaths_cons_write, writePaths_cons_msg, writePaths_nil] at hp
          rw [List.mem_singleton] at hp
          refine ⟨"performance_profile" ++ PERFORMANCE_PROFILE_OUTPUT_FORMAT, [], ?_,
            by simp [ownedHeads]⟩
          simpa [performance_profile_output_file, pathJoin] using hp
  case runtimeTypeChecking =>
    simp only [runStep, run_runtime_type_checking] at hp
    split at hp
    · simp [writePaths, eventWritePath] at hp
    · split at hp
      · simp [writePaths, eventWritePath] at hp
      · simp only [writePaths_cons_msg] at hp
        split at hp
        · simp [writePaths, eventWritePath] at hp
        · simp only [writePaths_cons_write, writePaths_cons_invoke] at hp
          rw [List.mem_cons] at hp
          rcases hp with hp | hp
          · refine ⟨"runtime_type_checking" ++ TYPE_CHECK_OUTPUT_FORMAT, [], ?_,
              by simp [ownedHeads]⟩
            simpa [type_check_output_file, pathJoin] using hp
          · split at hp
            · simp [writePaths, eventWritePath] at hp
            · simp only [writePaths_cons_write, writePaths_cons_msg, writePaths_nil] at hp
              rw [List.mem_singleton] at hp
              refine ⟨"runtime_type_checking" ++ TYPE_CHECK_OUTPUT_FORMAT, [], ?_,
                by simp [ownedHeads]⟩
              simpa [type_check_output_file, pathJoin] using hp
  case classInheritanceVisualization =>
    simp only [runStep, run_class_inheritance_visualization,
      writePaths_cons_msg, writePaths_cons_invoke] at hp
    split at hp
    · simp [writePaths, eventWritePath] at hp
    · rw [writePaths_append, List.mem_append] at hp
      rcases hp with hp | hp
      · have h1 := classDiagramEvents_writes env _ _ p hp
        refine ⟨"classes_classes.dot", [], ?_, by simp [ownedHeads]⟩
        simpa [pathJoin] using h1
      · have h1 := classDiagramEvents_writes env _ _ p hp
        refine ⟨"classes_packages.dot", [], ?_, by simp [ownedHeads]⟩
        simpa [pathJoin] using h1
  case semanticCodeAnalysis =>
    have h1 := captureStep_writes env _ _ _ _ _ p
      (by simpa only [runStep, run_semantic_code_analysis] using hp)
    refine ⟨"semantic_analysis" ++ SEMANTIC_ANALYSIS_FORMAT, [], ?_, by simp [ownedHeads]⟩
    simpa [semantic_output_file, pathJoin] using h1
  case automatedTestGeneration =>
    simp [runStep, run_automated_test_generation, writePaths, eventWritePath] at hp

/-- No two distinct steps own a common first path component. -/
theorem ownedHeads_inter : ∀ s t : StepId, s ≠ t → ownedHeads s ∩ ownedHeads t = [] := by
  decide

/-! Helper lemmas about `main_run`. -/

theorem main_run_no_path (env : Env) (cp : FsPath) (hpath : env.pathExists cp = false) :
    main_run env cp =
      { events := [.msg (path_missing_msg cp)], calls := [], result := .exitedStatus 1 } := by
  unfold main_run
  simp [hpath]

theorem main_run_req_failed (env : Env) (cp : FsPath)
    (hpath : env.pathExists cp = true) (h : missing_tools env ≠ []) :
    main_run env cp =
      { events := [.msg "[bold]Checking requirements...[/bold]",
          .msg (missing_tools_msg (missing_tools env)),
          .msg "[red]Please install them before running the script.[/red]"],
        calls := [], result := .exitedStatus 1 } := by
  unfold main_run check_requirements
  simp [hpath, h]

theorem main_run_calls (env : Env) (cp : FsPath)
    (hpath : env.pathExists cp = true) (hreq : missing_tools env = []) :
    (main_run env cp).calls = (runSteps env cp analysis_functions).1 := by
  unfold main_run check_requirements
  simp only [hpath, Bool.true_eq_false, if_false, hreq, if_pos]
  split <;> rfl

theorem main_run_all_ok (env : Env) (cp : FsPath)
    (hpath : env.pathExists cp = true) (hreq : missing_tools env = [])
    (hall : ∀ s, (runStep env cp s).exc = none) :
    (main_run env cp).result = .completedOk := by
  have hrs := runSteps_all_ok env cp analysis_functions (fun s _ => hall s)
  unfold main_run check_requirements
  simp only [hpath, Bool.true_eq_false, if_false, hreq, if_pos, hrs]

theorem runSteps_head (env : Env) (cp : FsPath) (s : StepId) (l : List StepId) :
    (runSteps env cp (s :: l)).1.head? = some (s, runStep env cp s) := by
  simp only [runSteps]
  split <;> rfl

/-- Steps outside the AST step and the four capture steps never let an
exception escape: their fallible operations are all guarded by
`except Exception` (or they perform no fallible operation at all). -/
theorem runStep_exc_none (env : Env) (cp : FsPath) :
    ∀ s : StepId, s ∉ escapableSteps → (runStep env cp s).exc = none := by
  intro s hs
  cases s
  case astAnalysis => exact absurd (by decide) hs
  case cfgAnalysis => rfl
  case callGraphAnalysis => rfl
  case dataFlowAnalysis => exact absurd (by decide) hs
  case staticCodeAnalysis => exact absurd (by decide) hs
  case cyclomaticComplexityAnalysis => exact absurd (by decide) hs
  case dependencyGraphAnalysis => rfl
  case codeCoverageAnalysis => rfl
  case memoryUsageProfiling =>
    simp only [runStep, run_memory_usage_profiling]
    split
    · rfl
    · split <;> rfl
  case executionProfiling =>
    simp only [runStep, run_execution_profiling]
    split
    · rfl
    · split <;> rfl
  case runtimeTypeChecking =>
    simp only [runStep, run_runtime_type_checking]
    split
    · rfl
    · split <;> rfl
  case classInheritanceVisualization => rfl
  case semanticCodeAnalysis => exact absurd (by decide) hs
  case automatedTestGeneration => rfl

/-- The exception escaping the AST step is exactly the failure of its
unguarded `os.makedirs` call: the step returns normally when `makedirs`
succeeds and escapes with its error when it does not. -/
theorem run_ast_analysis_exc (env : Env) (cp : FsPath) :
    (runStep env cp .astAnalysis).exc = env.mkdirs (pathJoin env.cwd "ast_output") := by
  rcases h : env.mkdirs (pathJoin env.cwd "ast_output") with _ | e <;>
    simp [runStep, run_ast_analysis, h]

/-- The "does not exist" wording occurs in the interactive skip message. -/
theorem scriptMissingMsg_contains (s : String) :
    containsStr (scriptMissingMsg s) "does not exist" := by
  refine ⟨"[red]The script '" ++ s ++ "' ", " in the provided repository.[/red]", ?_⟩
  unfold scriptMissingMsg
  have h : ("' does not exist in the provided repository.[/red]" : String) =
      "' " ++ ("does not exist" ++ " in the provided repository.[/red]") := by decide
  rw [String.append_assoc, String.append_assoc, ← h]
  rfl

/-! The claims. -/

/-- C4: if any tool of the fixed required set is not resolvable on the
search path, the run exits with status 1 after printing the listing of
exactly the unresolved tool names, no step function is called, and nothing
is invoked or written; if every tool resolves, the run proceeds into the
step list, starting with AST analysis. -/
theorem c4_missing_tools_abort (env : Env) (cp : FsPath)
    (hpath : env.pathExists cp = true) :
    (missing_tools env ≠ [] →
      (main_run env cp).result = .exitedStatus 1 ∧
      (main_run env cp).calls = [] ∧
      hasInvoke (main_run env cp).events = false ∧
      writePaths (main_run env cp).events = [] ∧
      Event.msg (missing_tools_msg (missing_tools env)) ∈ (main_run env cp).events ∧
      (∀ t, t ∈ missing_tools env ↔ t ∈ required_tools ∧ env.which t = false)) ∧
    (missing_tools env = [] →
      (main_run env cp).calls.head? =
        some (StepId.astAnalysis, runStep env cp .astAnalysis)) := by
  constructor
  · intro h
    rw [main_run_req_failed env cp hpath h]
    refine ⟨rfl, rfl, rfl, rfl, by simp, ?_⟩
    intro t
    simp [missing_tools, List.mem_filter]
  · intro hreq
    rw [main_run_calls env cp hpath hreq]
    exact runSteps_head env cp .astAnalysis _

/-- Witness for C4 at a concrete world missing the `dot` executable. -/
theorem c4_witness :
    (main_run envNoDot ["repo"]).result = .exitedStatus 1 ∧
    (main_run envNoDot ["repo"]).calls = [] :=
  ⟨((c4_missing_tools_abort envNoDot ["repo"] rfl).1 (by decide)).1,
   ((c4_missing_tools_abort envNoDot ["repo"] rfl).1 (by decide)).2.1⟩

/-- C5: if the target path does not exist, the process exits with status 1
before the requirement check runs (its banner is never printed), no step
is called, and no artifact is written. -/
theorem c5_missing_path_exits_early (env : Env) (cp : FsPath)
    (hpath : env.pathExists cp = false) :
    (main_run env cp).result = .exitedStatus 1 ∧
    (main_run env cp).calls = [] ∧
    writePaths (main_run env cp).events = [] ∧
    hasInvoke (main_run env cp).events = false ∧
    Event.msg "[bold]Checking requirements...[/bold]" ∉ (main_run env cp).events := by
  rw [main_run_no_path env cp hpath]
  refine ⟨rfl, rfl, rfl, rfl, ?_⟩
  intro hmem
  rw [List.mem_singleton] at hmem
  injection hmem with hs
  exact append_ne_str "[red]Error: Path '" (pathStr cp ++ "' does not exist.[/red]")
    "[bold]Checking requirements...[/bold]" 2 (by decide) (by decide) (by decide) hs.symm

/-- Witness for C5 at a concrete non-existent path. -/
theorem c5_witness :
    (main_run envNoPath ["repo_missing"]).result = .exitedStatus 1 ∧
    (main_run envNoPath ["repo_missing"]).calls = [] ∧
    writePaths (main_run envNoPath ["repo_missing"]).events = [] ∧
    hasInvoke (main_run envNoPath ["repo_missing"]).events = false ∧
    Event.msg "[bold]Checking requirements...[/bold]" ∉
      (main_run envNoPath ["repo_missing"]).events :=
  c5_missing_path_exits_early envNoPath ["repo_missing"] rfl

/-- C8: distinct steps write disjoint sets of paths: any path one step
writes is written by no other step, in every world. -/
theorem c8_output_paths_disjoint (env : Env) (cp : FsPath) (s t : StepId) (hst : s ≠ t)
    (p : FsPath) (hs : p ∈ writePaths (runStep env cp s).events) :
    p ∉ writePaths (runStep env cp t).events := by
  intro ht
  obtain ⟨h1, r1, he1, hm1⟩ := writePaths_runStep env cp s p hs
  obtain ⟨h2, r2, he2, hm2⟩ := writePaths_runStep env cp t p ht
  rw [he1] at he2
  have hcons := List.append_cancel_left he2
  injection hcons with hh _
  have hmem : h1 ∈ ownedHeads s ∩ ownedHeads t :=
    List.mem_inter_iff.mpr ⟨hm1, hh ▸ hm2⟩
  rw [ownedHeads_inter s t hst] at hmem
  exact List.not_mem_nil h1 hmem

/-- Witness for C8: the call-graph artifact path is never written by the
data-flow step. -/
theorem c8_witness :
    (["cwd", "call_graph.dot"] : FsPath) ∉
      writePaths (runStep baseEnv ["repo"] .dataFlowAnalysis).events :=
  c8_output_paths_disjoint baseEnv ["repo"] .callGraphAnalysis .dataFlowAnalysis
    (by decide) ["cwd", "call_graph.dot"] (by decide)

/-- C9: the AST output path is derived from the base name only, so two
Python sources with equal base names in different subdirectories are
dumped to the same output file and the later-walked dump is the one that
remains. -/
theorem c9_ast_basename_collision (env : Env) (cp r1 r2 : FsPath) (f d1 d2 : String)
    (_hr : r1 ≠ r2)
    (hpy : pyEndsWith f ".py" = true)
    (hmk : env.mkdirs (pathJoin env.cwd "ast_output") = none)
    (hw : env.walk cp = [(r1, [f]), (r2, [f])])
    (h1 : env.astDump (pathJoin r1 f) = .ok d1)
    (h2 : env.astDump (pathJoin r2 f) = .ok d2)
    (ho : env.openW (pathJoin (pathJoin env.cwd "ast_output") (f ++ AST_OUTPUT_FORMAT)) = none) :
    Event.write (pathJoin (pathJoin env.cwd "ast_output") (f ++ AST_OUTPUT_FORMAT)) d1 ∈
        (runStep env cp .astAnalysis).events ∧
    Event.write (pathJoin (pathJoin env.cwd "ast_output") (f ++ AST_OUTPUT_FORMAT)) d2 ∈
        (runStep env cp .astAnalysis).events ∧
    lastWrite (runStep env cp .astAnalysis).events
        (pathJoin (pathJoin env.cwd "ast_output") (f ++ AST_OUTPUT_FORMAT)) = some d2 := by
  simp only [runStep, run_ast_analysis, hmk, hw, astWalkEvents, astFilesEvents, astFileEvents,
    hpy, if_true, h1, h2, ho, VERBOSITY_LEVEL, gt_iff_lt, lt_self_iff_false, if_false,
    List.append_nil, List.nil_append]
  refine ⟨by simp, by simp, ?_⟩
  simp [lastWrite]

/-- Witness for C9 at a concrete world with `a/x.py` and `b/x.py`. -/
theorem c9_witness :
    Event.write (pathJoin (pathJoin envC9.cwd "ast_output") ("x.py" ++ AST_OUTPUT_FORMAT))
        "DUMP-A" ∈ (runStep envC9 ["repo"] .astAnalysis).events ∧
    Event.write (pathJoin (pathJoin envC9.cwd "ast_output") ("x.py" ++ AST_OUTPUT_FORMAT))
        "DUMP-B" ∈ (runStep envC9 ["repo"] .astAnalysis).events ∧
    lastWrite (runStep envC9 ["repo"] .astAnalysis).events
        (pathJoin (pathJoin envC9.cwd "ast_output") ("x.py" ++ AST_OUTPUT_FORMAT)) =
      some "DUMP-B" :=
  c9_ast_basename_collision envC9 ["repo"] ["repo", "a"] ["repo", "b"] "x.py" "DUMP-A" "DUMP-B"
    (by decide) (by decide) rfl rfl rfl rfl rfl

/-- C10: the coverage precondition tests existence only, not
directory-ness: when an entry named `tests` exists but is not a directory,
the step still attempts the coverage invocation and does not report the
skip notice. -/
theorem c10_tests_file_not_dir (env : Env) (cp : FsPath)
    (hex : env.pathExists (pathJoin cp "tests") = true)
    (_hdir : env.isDir (pathJoin cp "tests") = false) :
    hasInvoke (runStep env cp .codeCoverageAnalysis).events = true ∧
    Event.msg coverage_skip_msg ∉ (runStep env cp .codeCoverageAnalysis).events := by
  constructor
  · simp only [runStep, run_code_coverage_analysis, hex, if_true]
    rfl
  · intro hmem
    simp only [runStep, run_code_coverage_analysis, hex, if_true] at hmem
    rw [List.mem_cons, List.mem_cons] at hmem
    rcases hmem with h | h | h
    · injection h with hs
      exact absurd hs (by decide)
    · simp at h
    · split at h
      · rw [List.mem_singleton] at h
        injection h with hs
        exact append_ne_str "[red]Code coverage analysis failed: " _ coverage_skip_msg 2
          (by decide) (by decide) (by decide) hs.symm
      · rw [List.mem_cons] at h
        rcases h with h | h
        · simp at h
        · split at h
          · rw [List.mem_singleton] at h
            injection h with hs
            exact append_ne_str "[red]Code coverage analysis failed: " _ coverage_skip_msg 2
              (by decide) (by decide) (by decide) hs.symm
          · rw [List.mem_cons, List.mem_singleton] at h
            rcases h with h | h
            · simp at h
            · injection h with hs
              exact append_ne_str "Coverage report saved to [green]"
                (pathStr (coverage_output_dir env) ++ "[/green]") coverage_skip_msg 1
                (by decide) (by decide) (by decide) hs.symm

/-- Witness for C10 at a concrete world whose `repo/tests` is a plain file. -/
theorem c10_witness :
    hasInvoke (runStep envTestsFile ["repo"] .codeCoverageAnalysis).events = true ∧
    Event.msg coverage_skip_msg ∉ (runStep envTestsFile ["repo"] .codeCoverageAnalysis).events :=
  c10_tests_file_not_dir envTestsFile ["repo"] rfl rfl

/-- C6 as stated is refuted: in a world whose `repo/tests` is a plain
file, the coverage invocation is attempted although no `tests`
subdirectory exists, so invocation is not equivalent to the existence of a
`tests` subdirectory. -/
theorem c6_counterexample :
    ¬ (hasInvoke (runStep envTestsFile ["repo"] .codeCoverageAnalysis).events = true ↔
       (envTestsFile.pathExists (pathJoin ["repo"] "tests") = true ∧
        envTestsFile.isDir (pathJoin ["repo"] "tests") = true)) := by
  decide

/-- C6 amended: the coverage step attempts the invocation if and only if
an entry named `tests` exists under the target path, directory or not;
when no such entry exists the step performs no invocation and reports
exactly the skip notice. -/
theorem c6_tests_existence_gate (env : Env) (cp : FsPath) :
    (hasInvoke (runStep env cp .codeCoverageAnalysis).events = true ↔
      env.pathExists (pathJoin cp "tests") = true) ∧
    (env.pathExists (pathJoin cp "tests") = false →
      (runStep env cp .codeCoverageAnalysis).events =
        [.msg "[bold]8. Code Coverage Analysis[/bold]", .msg coverage_skip_msg]) := by
  constructor
  · constructor
    · intro hinv
      cases hb : env.pathExists (pathJoin cp "tests")
      · simp only [runStep, run_code_coverage_analysis, hb, Bool.false_eq_true,
          if_false] at hinv
        exact absurd hinv (by decide)
      · rfl
    · intro hex
      simp only [runStep, run_code_coverage_analysis, hex, if_true]
      rfl
  · intro hfalse
    simp only [runStep, run_code_coverage_analysis, hfalse, Bool.false_eq_true, if_false]

/-- Witness for the amended C6: in `baseEnv` the `tests` entry exists and
the invocation is attempted. -/
theorem c6_witness :
    hasInvoke (runStep baseEnv ["repo"] .codeCoverageAnalysis).events = true :=
  (c6_tests_existence_gate baseEnv ["repo"]).1.mpr rfl

/-- C7: for the three interactive steps, an empty prompt response makes
the step return normally with no invocation; a non-empty response naming a
path that does not exist under the target makes the step return normally
with no invocation after printing a message containing "does not exist". -/
theorem c7_interactive_skip (env : Env) (cp : FsPath) (s : StepId)
    (hs : s ∈ ([.memoryUsageProfiling, .executionProfiling, .runtimeTypeChecking] : List StepId))
    (hwf : Env.WF env) :
    (env.prompt (promptTextOf s) = "" →
      hasInvoke (runStep env cp s).events = false ∧ (runStep env cp s).exc = none) ∧
    (∀ resp, env.prompt (promptTextOf s) = resp → pyStrip resp ≠ "" →
      env.pathExists (pathJoin cp resp) = false →
      hasInvoke (runStep env cp s).events = false ∧
      Event.msg (scriptMissingMsg resp) ∈ (runStep env cp s).events ∧
      containsStr (scriptMissingMsg resp) "does not exist") := by
  have hfile : ∀ resp, env.pathExists (pathJoin cp resp) = false →
      env.isFile (pathJoin cp resp) = false := by
    intro resp hpe
    cases hf : env.isFile (pathJoin cp resp)
    · rfl
    · rw [hwf.1 (pathJoin cp resp) hf] at hpe
      exact absurd hpe (by decide)
  simp only [List.mem_cons, List.not_mem_nil, or_false] at hs
  rcases hs with hs | hs | hs <;> subst hs <;>
    (constructor
     · intro hresp
       simp only [promptTextOf] at hresp
       simp only [runStep, run_memory_usage_profiling, run_execution_profiling,
         run_runtime_type_checking]
       rw [hresp]
       exact ⟨rfl, rfl⟩
     · intro resp hresp htrim hpe
       simp only [promptTextOf] at hresp
       simp only [runStep, run_memory_usage_profiling, run_execution_profiling,
         run_runtime_type_checking]
       rw [hresp, if_neg htrim, hfile resp hpe]
       exact ⟨rfl, by simp, scriptMissingMsg_contains resp⟩)

/-- Witness for C7: the memory step with response `ghost.py`, a file that
does not exist under the target. -/
theorem c7_witness :
    hasInvoke (runStep env7 ["repo"] .memoryUsageProfiling).events = false ∧
    Event.msg (scriptMissingMsg "ghost.py") ∈
      (runStep env7 ["repo"] .memoryUsageProfiling).events ∧
    containsStr (scriptMissingMsg "ghost.py") "does not exist" :=
  (c7_interactive_skip env7 ["repo"] .memoryUsageProfiling (by decide)
    ⟨fun p h => h, fun p h => h⟩).2 "ghost.py" (by decide) (by decide) (by decide)

/-- C1 as stated is refuted: in `envEscape` the target path exists and
every required tool resolves, yet the driver does not execute all fourteen
steps, because the data-flow step lets an `OSError` escape and the step
loop has no handler. -/
theorem c1_counterexample :
    envEscape.pathExists ["repo"] = true ∧
    missing_tools envEscape = [] ∧
    (main_run envEscape ["repo"]).calls.map Prod.fst ≠ analysis_functions :=
  ⟨rfl, by decide, by decide⟩

/-- C1 amended: for every run that passes the path and requirement checks
and in which no step lets an exception escape, the driver calls all
fourteen step functions, each exactly once, in the declared order. -/
theorem c1_all_steps_in_order (env : Env) (cp : FsPath)
    (hpath : env.pathExists cp = true)
    (hreq : missing_tools env = [])
    (hall : ∀ s, (runStep env cp s).exc = none) :
    (main_run env cp).calls.map Prod.fst = analysis_functions := by
  rw [main_run_calls env cp hpath hreq,
    runSteps_all_ok env cp analysis_functions (fun s _ => hall s)]
  simp only [List.map_map]
  exact List.map_id analysis_functions

/-- Witness for the amended C1 at a concrete all-good world. -/
theorem c1_witness :
    (main_run baseEnv ["repo"]).calls.map Prod.fst = analysis_functions :=
  c1_all_steps_in_order baseEnv ["repo"] rfl (by decide) (by decide)

/-- C2 as stated is refuted: in `envEscape` both entry checks pass, yet
the `OSError` raised while opening the data-flow output file is not caught
by the step's `except subprocess.CalledProcessError` handler, escapes the
step function, and the process ends with an uncaught exception (non-zero
exit status) instead of exit status zero. -/
theorem c2_counterexample :
    envEscape.pathExists ["repo"] = true ∧
    missing_tools envEscape = [] ∧
    (runStep envEscape ["repo"] .dataFlowAnalysis).exc = some Exc.osError ∧
    (main_run envEscape ["repo"]).result = .crashed Exc.osError :=
  ⟨rfl, by decide, by decide, by decide⟩

/-- C2 amended: every step outside the AST step and the four capture
steps (data flow, lint, complexity, semantic) catches any failure arising
inside it and returns normally, in every world; the AST step's escaping
exception is exactly the failure of its unguarded `os.makedirs` call (so
it returns normally whenever that call succeeds); and whenever both entry
checks pass and no step lets an exception escape, the process exit status
is zero. -/
theorem c2_step_failure_isolation :
    (∀ (env : Env) (cp : FsPath) (s : StepId), s ∉ escapableSteps →
      (runStep env cp s).exc = none) ∧
    (∀ (env : Env) (cp : FsPath),
      (runStep env cp .astAnalysis).exc = env.mkdirs (pathJoin env.cwd "ast_output")) ∧
    (∀ (env : Env) (cp : FsPath), env.pathExists cp = true → missing_tools env = [] →
      (∀ s, (runStep env cp s).exc = none) →
      (main_run env cp).result = .completedOk) :=
  ⟨fun env cp s hs => runStep_exc_none env cp s hs,
   fun env cp => run_ast_analysis_exc env cp,
   fun env cp hpath hreq hall => main_run_all_ok env cp hpath hreq hall⟩

/-- Witness for the amended C2 at concrete worlds: a step outside the
escapable five returns normally, the AST step returns normally when
`makedirs` succeeds and escapes when a plain file blocks `ast_output`,
and the all-good run exits with status zero. -/
theorem c2_witness :
    (runStep baseEnv ["repo"] .codeCoverageAnalysis).exc = none ∧
    (runStep baseEnv ["repo"] .astAnalysis).exc = none ∧
    (runStep envAstBlocked ["repo"] .astAnalysis).exc = some Exc.osError ∧
    (main_run baseEnv ["repo"]).result = .completedOk :=
  ⟨c2_step_failure_isolation.1 baseEnv ["repo"] .codeCoverageAnalysis (by decide),
   c2_step_failure_isolation.2.1 baseEnv ["repo"],
   (c2_step_failure_isolation.2.1 envAstBlocked ["repo"]).trans (by decide),
   c2_step_failure_isolation.2.2 baseEnv ["repo"] rfl (by decide) (by decide)⟩

/-- C3 as stated is refuted: pylint exits with status 16 in
`envLintFails`, and the lint step still reports the artifact as saved and
prints no failure warning. -/
theorem c3_counterexample :
    envLintFails.run (lint_cmd ["repo"]) = .completed 16 ∧
    Event.msg (lint_saved_msg envLintFails) ∈
      (runStep envLintFails ["repo"] .staticCodeAnalysis).events ∧
    Event.msg lint_fail_msg ∉ (runStep envLintFails ["repo"] .staticCodeAnalysis).events := by
  refine ⟨rfl, by decide, by decide⟩

/-- C3 amended: the steps that invoke their tool with `check=True` (call
graph, dependency graph, coverage, memory profiling, execution profiling,
class visualization) report a non-zero exit status as a failure warning
and print no saved-artifact message; the five capture steps (data flow,
lint, complexity, semantic, runtime type checking) invoke with
`check=False` and report the artifact as saved, with no failure warning,
regardless of the non-zero exit status. -/
theorem c3_exit_status_reporting (env : Env) (cp : FsPath) :
    (∀ c, env.run (call_graph_cmd env cp) = .completed c → c ≠ 0 →
      Event.msg (call_graph_fail_msg .calledProcessError) ∈
        (runStep env cp .callGraphAnalysis).events ∧
      Event.msg (call_graph_saved_msg env) ∉ (runStep env cp .callGraphAnalysis).events) ∧
    (∀ c, env.run (dependency_graph_cmd env cp) = .completed c → c ≠ 0 →
      Event.msg (dependency_graph_fail_msg .calledProcessError) ∈
        (runStep env cp .dependencyGraphAnalysis).events ∧
      Event.msg (dependency_graph_saved_msg env) ∉
        (runStep env cp .dependencyGraphAnalysis).events) ∧
    (∀ c, env.run (pyreverse_cmd cp) = .completed c → c ≠ 0 →
      Event.msg (class_viz_fail_msg .calledProcessError) ∈
        (runStep env cp .classInheritanceVisualization).events ∧
      Event.msg (class_diagram_saved_msg env "classes_classes.dot") ∉
        (runStep env cp .classInheritanceVisualization).events ∧
      Event.msg (class_diagram_saved_msg env "classes_packages.dot") ∉
        (runStep env cp .classInheritanceVisualization).events) ∧
    (∀ c, env.pathExists (pathJoin cp "tests") = true →
      env.run (coverage_discover_cmd cp) = .completed c → c ≠ 0 →
      Event.msg (coverage_fail_msg .calledProcessError) ∈
        (runStep env cp .codeCoverageAnalysis).events ∧
      Event.msg (coverage_saved_msg env) ∉ (runStep env cp .codeCoverageAnalysis).events) ∧
    (∀ resp c, env.prompt memoryPromptText = resp → pyStrip resp ≠ "" →
      env.isFile (pathJoin cp resp) = true →
      env.run (mprof_launch_cmd cp resp) = .completed c → c ≠ 0 →
      Event.msg (memory_fail_msg .calledProcessError) ∈
        (runStep env cp .memoryUsageProfiling).events ∧
      Event.msg (memory_saved_msg env) ∉ (runStep env cp .memoryUsageProfiling).events) ∧
    (∀ resp c, env.prompt executionPromptText = resp → pyStrip resp ≠ "" →
      env.isFile (pathJoin cp resp) = true →
      env.run (cprofile_cmd env cp resp) = .completed c → c ≠ 0 →
      Event.msg (execution_fail_msg .calledProcessError) ∈
        (runStep env cp .executionProfiling).events ∧
      Event.msg (performance_saved_msg env) ∉ (runStep env cp .executionProfiling).events) ∧
    (∀ c, env.openW (data_flow_output_file env) = none →
      env.run (data_flow_cmd cp) = .completed c → c ≠ 0 →
      Event.msg (data_flow_saved_msg env) ∈ (runStep env cp .dataFlowAnalysis).events ∧
      Event.msg data_flow_fail_msg ∉ (runStep env cp .dataFlowAnalysis).events) ∧
    (∀ c, env.openW (lint_output_file env) = none →
      env.run (lint_cmd cp) = .completed c → c ≠ 0 →
      Event.msg (lint_saved_msg env) ∈ (runStep env cp .staticCodeAnalysis).events ∧
      Event.msg lint_fail_msg ∉ (runStep env cp .staticCodeAnalysis).events) ∧
    (∀ c, env.openW (complexity_output_file env) = none →
      env.run (complexity_cmd cp) = .completed c → c ≠ 0 →
      Event.msg (complexity_saved_msg env) ∈
        (runStep env cp .cyclomaticComplexityAnalysis).events ∧
      Event.msg complexity_fail_msg ∉
        (runStep env cp .cyclomaticComplexityAnalysis).events) ∧
    (∀ c, env.openW (semantic_output_file env) = none →
      env.run (semantic_cmd cp) = .completed c → c ≠ 0 →
      Event.msg (semantic_saved_msg env) ∈ (runStep env cp .semanticCodeAnalysis).events ∧
      Event.msg semantic_fail_msg ∉ (runStep env cp .semanticCodeAnalysis).events) ∧
    (∀ resp c, env.prompt typecheckPromptText = resp → pyStrip resp ≠ "" →
      env.isFile (pathJoin cp resp) = true →
      env.openW (type_check_output_file env) = none →
      env.run (typeguard_cmd cp resp) = .completed c → c ≠ 0 →
      Event.msg (typecheck_saved_msg env) ∈ (runStep env cp .runtimeTypeChecking).events ∧
      (∀ e, Event.msg (typecheck_fail_msg e) ∉ (runStep env cp .runtimeTypeChecking).events)) := by
  refine ⟨?_, ?_, ?_, ?_, ?_, ?_, ?_, ?_, ?_, ?_, ?_⟩
  · intro c hc hcz
    have he := graphToolStep_events_failed env "[bold]3. Call Graph Analysis[/bold]"
      (call_graph_output_file env) (call_graph_cmd env cp) (call_graph_saved_msg env)
      call_graph_fail_msg c hc hcz
    simp only [runStep, run_call_graph_analysis]
    rw [he]
    refine ⟨by simp, ?_⟩
    intro hmem
    rw [List.mem_cons, List.mem_cons, List.mem_singleton] at hmem
    rcases hmem with h | h | h
    · injection h with hs
      exact append_ne_str "Call graph saved to [green]"
        (pathStr (call_graph_output_file env) ++ "[/green]")
        "[bold]3. Call Graph Analysis[/bold]" 1 (by decide) (by decide) (by decide) hs
    · simp at h
    · injection h with hs
      exact append_ne_append "Call graph saved to [green]"
        (pathStr (call_graph_output_file env) ++ "[/green]")
        "[red]Failed to generate call graph: "
        (excStr .calledProcessError ++ "[/red]") 1 (by decide) (by decide) (by decide) hs
  · intro c hc hcz
    have he := graphToolStep_events_failed env "[bold]7. Dependency Graph Analysis[/bold]"
      (dependency_graph_output_file env) (dependency_graph_cmd env cp)
      (dependency_graph_saved_msg env) dependency_graph_fail_msg c hc hcz
    simp only [runStep, run_dependency_graph_analysis]
    rw [he]
    refine ⟨by simp, ?_⟩
    intro hmem
    rw [List.mem_cons, List.mem_cons, List.mem_singleton] at hmem
    rcases hmem with h | h | h
    · injection h with hs
      exact append_ne_str "Dependency graph saved to [green]"
        (pathStr (dependency_graph_output_file env) ++ "[/green]")
        "[bold]7. Dependency Graph Analysis[/bold]" 1 (by decide) (by decide) (by decide) hs
    · simp at h
    · injection h with hs
      exact append_ne_append "Dependency graph saved to [green]"
        (pathStr (dependency_graph_output_file env) ++ "[/green]")
        "[red]Dependency graph analysis failed: "
        (excStr .calledProcessError ++ "[/red]") 1 (by decide) (by decide) (by decide) hs
  · intro c hc hcz
    simp only [runStep, run_class_inheritance_visualization]
    rw [hc]
    simp only [subprocessRun, if_neg hcz, if_true]
    refine ⟨by simp, ?_, ?_⟩ <;>
      (intro hmem
       rw [List.mem_cons, List.mem_cons, List.mem_singleton] at hmem
       rcases hmem with h | h | h
       · injection h with hs
         exact append_ne_str "Class diagram saved to [green]"
           (pathStr (pathJoin env.cwd _) ++ "[/green]")
           "[bold]12. Class Inheritance/Composition Visualization[/bold]" 1
           (by decide) (by decide) (by decide) hs
       · simp at h
       · injection h with hs
         exact append_ne_append "Class diagram saved to [green]"
           (pathStr (pathJoin env.cwd _) ++ "[/green]")
           "[red]Class inheritance visualization failed: "
           (excStr .calledProcessError ++ "[/red]") 1 (by decide) (by decide) (by decide) hs)
  · intro c hex hc hcz
    simp only [runStep, run_code_coverage_analysis, hex, if_true]
    rw [hc]
    simp only [subprocessRun, if_neg hcz, if_true]
    refine ⟨by simp, ?_⟩
    intro hmem
    rw [List.mem_cons, List.mem_cons, List.mem_singleton] at hmem
    rcases hmem with h | h | h
    · injection h with hs
      exact append_ne_str "Coverage report saved to [green]"
        (pathStr (coverage_output_dir env) ++ "[/green]")
        "[bold]8. Code Coverage Analysis[/bold]" 1 (by decide) (by decide) (by decide) hs
    · simp at h
    · injection h with hs
      exact append_ne_append "Coverage report saved to [green]"
        (pathStr (coverage_output_dir env) ++ "[/green]")
        "[red]Code coverage analysis failed: "
        (excStr .calledProcessError ++ "[/red]") 1 (by decide) (by decide) (by decide) hs
  · intro resp c hresp htrim hfile hc hcz
    simp only [runStep, run_memory_usage_profiling]
    rw [hresp, if_neg htrim]
    simp only [hfile, Bool.true_eq_false, if_false]
    rw [hc]
    simp only [subprocessRun, if_neg hcz, if_true]
    refine ⟨by simp, ?_⟩
    intro hmem
    rw [List.mem_cons, List.mem_cons, List.mem_cons, List.mem_singleton] at hmem
    rcases hmem with h | h | h | h
    · injection h with hs
      exact append_ne_str "Memory profile report saved to [green]"
        (pathStr (memory_profile_output_file env) ++ "[/green]")
        "[bold]9. Memory Usage Profiling[/bold]" 1 (by decide) (by decide) (by decide) hs
    · injection h with hs
      exact append_ne_str "Memory profile report saved to [green]"
        (pathStr (memory_profile_output_file env) ++ "[/green]")
        "[yellow]Running the program for memory profiling. Please interact with it as needed.[/yellow]"
        1 (by decide) (by decide) (by decide) hs
    · simp at h
    · injection h with hs
      exact append_ne_append "Memory profile report saved to [green]"
        (pathStr (memory_profile_output_file env) ++ "[/green]")
        "[red]Memory usage profiling failed: "
        (excStr .calledProcessError ++ "[/red]") 1 (by decide) (by decide) (by decide) hs
  · intro resp c hresp htrim hfile hc hcz
    simp only [runStep, run_execution_profiling]
    rw [hresp, if_neg htrim]
    simp only [hfile, Bool.true_eq_false, if_false]
    rw [hc]
    simp only [subprocessRun, if_neg hcz, if_true]
    refine ⟨by simp, ?_⟩
    intro hmem
    rw [List.mem_cons, List.mem_cons, List.mem_cons, List.mem_singleton] at hmem
    rcases hmem with h | h | h | h
    · injection h with hs
      exact append_ne_str "Performance profile report saved to [green]"
        (pathStr (performance_profile_output_file env) ++ "[/green]")
        "[bold]10. Execution Profiling (Time and Performance)[/bold]" 1
        (by decide) (by decide) (by decide) hs
    · injection h with hs
      exact append_ne_str "Performance profile report saved to [green]"
        (pathStr (performance_profile_output_file env) ++ "[/green]")
        "[yellow]Running the program for execution profiling. Please interact with it as needed.[/yellow]"
        1 (by decide) (by decide) (by decide) hs
    · simp at h
    · injection h with hs
      exact append_ne_append "Performance profile report saved to [green]"
        (pathStr (performance_profile_output_file env) ++ "[/green]")
        "[red]Execution profiling failed: "
        (excStr .calledProcessError ++ "[/red]") 1 (by decide) (by decide) (by decide) hs
  · intro c ho hc _hcz
    have he := captureStep_events_completed env "[bold]4. Data Flow Analysis[/bold]"
      (data_flow_output_file env) (data_flow_cmd cp) (data_flow_saved_msg env)
      data_flow_fail_msg c ho hc
    simp only [runStep, run_data_flow_analysis]
    rw [he]
    refine ⟨by simp, ?_⟩
    intro hmem
    rw [List.mem_cons, List.mem_cons, List.mem_cons, List.mem_cons,
      List.mem_singleton] at hmem
    rcases hmem with h | h | h | h | h
    · injection h with hs
      exact absurd hs (by decide)
    · simp at h
    · simp at h
    · simp at h
    · injection h with hs
      exact append_ne_str "Data flow analysis report saved to [green]"
        (pathStr (data_flow_output_file env) ++ "[/green]") data_flow_fail_msg 1
        (by decide) (by decide) (by decide) hs.symm
  · intro c ho hc _hcz
    have he := captureStep_events_completed env "[bold]5. Static Code Analysis (Linter)[/bold]"
      (lint_output_file env) (lint_cmd cp) (lint_saved_msg env) lint_fail_msg c ho hc
    simp only [runStep, run_static_code_analysis]
    rw [he]
    refine ⟨by simp, ?_⟩
    intro hmem
    rw [List.mem_cons, List.mem_cons, List.mem_cons, List.mem_cons,
      List.mem_singleton] at hmem
    rcases hmem with h | h | h | h | h
    · injection h with hs
      exact absurd hs (by decide)
    · simp at h
    · simp at h
    · simp at h
    · injection h with hs
      exact append_ne_str "Linting report saved to [green]"
        (pathStr (lint_output_file env) ++ "[/green]") lint_fail_msg 1
        (by decide) (by decide) (by decide) hs.symm
  · intro c ho hc _hcz
    have he := captureStep_events_completed env "[bold]6. Cyclomatic Complexity Analysis[/bold]"
      (complexity_output_file env) (complexity_cmd cp) (complexity_saved_msg env)
      complexity_fail_msg c ho hc
    simp only [runStep, run_cyclomatic_complexity_analysis]
    rw [he]
    refine ⟨by simp, ?_⟩
    intro hmem
    rw [List.mem_cons, List.mem_cons, List.mem_cons, List.mem_cons,
      List.mem_singleton] at hmem
    rcases hmem with h | h | h | h | h
    · injection h with hs
      exact absurd hs (by decide)
    · simp at h
    · simp at h
    · simp at h
    · injection h with hs
      exact append_ne_str "Cyclomatic complexity report saved to [green]"
        (pathStr (complexity_output_file env) ++ "[/green]") complexity_fail_msg 1
        (by decide) (by decide) (by decide) hs.symm
  · intro c ho hc _hcz
    have he := captureStep_events_completed env "[bold]13. Semantic Code Analysis[/bold]"
      (semantic_output_file env) (semantic_cmd cp) (semantic_saved_msg env)
      semantic_fail_msg c ho hc
    simp only [runStep, run_semantic_code_analysis]
    rw [he]
    refine ⟨by simp, ?_⟩
    intro hmem
    rw [List.mem_cons, List.mem_cons, List.mem_cons, List.mem_cons,
      List.mem_singleton] at hmem
    rcases hmem with h | h | h | h | h
    · injection h with hs
      exact absurd hs (by decide)
    · simp at h
    · simp at h
    · simp at h
    · injection h with hs
      exact append_ne_str "Semantic analysis report saved to [green]"
        (pathStr (semantic_output_file env) ++ "[/green]") semantic_fail_msg 1
        (by decide) (by decide) (by decide) hs.symm
  · intro resp c hresp htrim hfile ho hc _hcz
    simp only [runStep, run_runtime_type_checking]
    rw [hresp, if_neg htrim]
    simp only [hfile, Bool.true_eq_false, if_false]
    simp only [ho, hc]
    refine ⟨by simp, ?_⟩
    intro e hmem
    rw [List.mem_cons, List.mem_cons, List.mem_cons, List.mem_cons, List.mem_cons,
      List.mem_singleton] at hmem
    rcases hmem with h | h | h | h | h | h
    · injection h with hs
      exact append_ne_str "[red]Runtime type checking failed: "
        (excStr e ++ "[/red]") "[bold]11. Runtime Type Checking[/bold]" 2
        (by decide) (by decide) (by decide) hs
    · injection h with hs
      exact append_ne_str "[red]Runtime type checking failed: "
        (excStr e ++ "[/red]")
        "[yellow]Running the program with runtime type checking. Please interact with it as needed.[/yellow]"
        2 (by decide) (by decide) (by decide) hs
    · simp at h
    · simp at h
    · simp at h
    · injection h with hs
      exact append_ne_append "[red]Runtime type checking failed: "
        (excStr e ++ "[/red]") "Type violation logs saved to [green]"
        (pathStr (type_check_output_file env) ++ "[/green]") 1
        (by decide) (by decide) (by decide) hs

/-- Witness for the amended C3: pydeps exits 2 so the call-graph step
warns; pylint exits 16 and the lint step still reports its artifact. -/
theorem c3_witness :
    Event.msg (call_graph_fail_msg .calledProcessError) ∈
      (runStep envC3W ["repo"] .callGraphAnalysis).events ∧
    Event.msg (lint_saved_msg envC3W) ∈
      (runStep envC3W ["repo"] .staticCodeAnalysis).events :=
  ⟨((c3_exit_status_reporting envC3W ["repo"]).1 2 (by decide) (by decide)).1,
   ((c3_exit_status_reporting envC3W ["repo"]).2.2.2.2.2.2.2.1 16 rfl (by decide)
      (by decide)).1⟩

end CodeAnalysisTool
